import Mathlib

/-!
# errm: the error monad of `gomonad`

A shallow embedding of `src/errm/errmon.go`.

* A Go pointer `*T` is an `Option T` (`nil` is `none`, `&x` is `some x`);
  dereferencing `nil` is the panic `Panic.nilDereference`.
* A Go `error` interface value is an `Option Error` (`nil` is `none`).
* A Go function may have effects and may panic, so every callback is a
  computation `Go σ α`: it receives the world (the package variable
  `decorateError` together with an arbitrary user state `σ`) and either
  panics or returns a result with the next world. "The callback is not
  applied" is then the statement that, for every callback, the world comes
  back unchanged and the result does not depend on the callback.
-/

namespace errm

/-! ## Errors -/

/-- Error values. `errorString` is what `errors.New` and a `fmt.Errorf`
without `%w` allocate: a pointer, whose identity is the field `addr`.
`wrapError` is what `fmt.Errorf` with one `%w` allocates: a message and the
wrapped error. All error values of the model are comparable. -/
inductive Error where
  | errorString (addr : Nat) (s : String)
  | wrapError (msg : String) (err : Error)
deriving DecidableEq, Repr

namespace Error

/-- The method `Error() string`. -/
def message : Error → String
  | errorString _ s => s
  | wrapError msg _ => msg

/-- The method `Unwrap() error`, `nil` for an error that has none. -/
def Unwrap : Error → Option Error
  | errorString _ _ => none
  | wrapError _ err => some err

/-- The loop of the standard library's `errors.Is` on a non-nil chain:
compare, else unwrap and go on. -/
def is : Error → Error → Bool
  | errorString addr s, target => decide (errorString addr s = target)
  | wrapError msg err, target =>
    decide (wrapError msg err = target) || is err target

end Error

/-- The standard library's `errors.Is(err, target)`. -/
def Is (err target : Option Error) : Bool :=
  match err, target with
  | some e, some t => Error.is e t
  | none, none => true
  | _, _ => false

/-- The standard library's `fmt.Errorf("%v(%#v): %w", name, t, err)`, with
`rendered` the `%#v` rendering of `t`: the message is the formatted text,
in which `%w` prints `err.Error()`, and the result wraps `err`. -/
def Errorf (name rendered : String) (err : Error) : Error :=
  Error.wrapError (name ++ "(" ++ rendered ++ "): " ++ err.message) err

/-! ## The world and effectful computations -/

/-- A Go run-time panic. -/
inductive Panic where
  | nilDereference
  | raised (msg : String)
deriving DecidableEq, Repr

/-- The state a call can read and write: the package variable
`decorateError` and the state of the calling program. -/
structure World (σ : Type) where
  decorateError : Bool
  user : σ
deriving DecidableEq, Repr

/-- The world when the package is loaded: `var decorateError bool = true`. -/
def World.init {σ : Type} (user : σ) : World σ :=
  { decorateError := true, user := user }

/-- A Go call that returns an `α`: it panics or returns with a new world. -/
abbrev Go (σ α : Type) := World σ → Except Panic (α × World σ)

namespace Go

/-- A call that returns `a` and has no effect. -/
def ret {σ α : Type} (a : α) : Go σ α := fun w => .ok (a, w)

/-- Sequencing: run `m`, then `k` on its result. -/
def seq {σ α β : Type} (m : Go σ α) (k : α → Go σ β) : Go σ β :=
  fun w =>
    match m w with
    | .ok (a, w') => k a w'
    | .error p => .error p

/-- A partial pure operation (a dereference) as a call. -/
def lift {σ α : Type} (r : Except Panic α) : Go σ α :=
  fun w =>
    match r with
    | .ok a => .ok (a, w)
    | .error p => .error p

end Go

/-- Dereference `*p`. -/
def deref {α : Type} (p : Option α) : Except Panic α :=
  match p with
  | some a => .ok a
  | none => .error Panic.nilDereference

/-! ## The container -/

/-- The struct `Monad[T]`: `value *T` and `err error`. -/
structure Monad (T : Type) where
  value : Option T
  err : Option Error
deriving DecidableEq, Repr

/-- The zero value of `Monad[T]`. -/
instance {T : Type} : Inhabited (Monad T) := ⟨{ value := none, err := none }⟩

/-- The function `Some`. -/
def Some {T : Type} (value : T) : Monad T :=
  { value := some value, err := none }

/-- The function `Return`. -/
def Return {T : Type} (value : T) : Monad T :=
  Some value

/-- The function `Err`. -/
def Err {T : Type} (err : Option Error) : Monad T :=
  { value := none, err := err }

/-- The function `Bind`. -/
def Bind {σ T U : Type} (mt : Monad T) (action : T → Go σ (Monad U)) :
    Go σ (Monad U) :=
  fun w =>
    if mt.err ≠ none then
      .ok ({ value := none, err := mt.err }, w)
    else
      match deref mt.value with
      | .ok t => action t w
      | .error p => .error p

/-- The function `WithDefault`. -/
def WithDefault {σ T : Type} (mt : Monad T) (action : Go σ (Monad T)) :
    Go σ (Monad T) :=
  fun w =>
    if mt.err ≠ none then
      action w
    else
      .ok (mt, w)

/-- The function `AndThen`. -/
def AndThen {σ T U : Type} (mt : Monad T) (action : T → Go σ (Monad U)) :
    Go σ (Monad U) :=
  Bind mt action

/-- The function `OrElse`. -/
def OrElse {σ T : Type} (mt : Monad T) (action : Go σ (Monad T)) :
    Go σ (Monad T) :=
  WithDefault mt action

/-- The function `FromValue`: the returned closure. -/
def FromValue {σ T : Type} (t : T) : Go σ (Monad T) :=
  fun w => .ok ({ value := some t, err := none }, w)

/-- The function `Build`: a call that runs `action` and returns the
closure. -/
def Build {σ T : Type} (action : Go σ (T × Option Error)) :
    Go σ (Go σ (Monad T)) :=
  fun w =>
    match action w with
    | .ok ((t, err), w') =>
      .ok ((fun w'' => .ok ({ value := some t, err := err }, w'')), w')
    | .error p => .error p

/-- The function `Fish`: the returned closure. -/
def Fish {σ T U V : Type} (actionA : T → Go σ (Monad U))
    (actionB : U → Go σ (Monad V)) : T → Go σ (Monad V) :=
  fun t w =>
    match actionA t w with
    | .ok (mu, w') =>
      if mu.err ≠ none then
        .ok ({ value := none, err := mu.err }, w')
      else
        match deref mu.value with
        | .ok u => actionB u w'
        | .error p => .error p
    | .error p => .error p

/-- The function `Join`. -/
def Join {T : Type} (mmt : Monad (Monad T)) : Except Panic (Monad T) :=
  if mmt.err ≠ none then
    .ok { value := none, err := mmt.err }
  else
    deref mmt.value

/-- The function `Raise`: the returned closure. -/
def Raise {σ T U : Type} (action : T → Go σ (Monad U)) :
    Monad T → Go σ (Monad (Monad U)) :=
  fun mt w =>
    if mt.err ≠ none then
      .ok ({ value := none, err := mt.err }, w)
    else
      match deref mt.value with
      | .ok t =>
        match action t w with
        | .ok (mu, w') => .ok ({ value := some mu, err := none }, w')
        | .error p => .error p
      | .error p => .error p

/-- The function `Wrap`: the returned closure. `getFunctionName` is the
name the run time resolves for a function value and `sharpV` the `%#v`
rendering of an input. The flag is read after `action` has returned. -/
def Wrap {σ T U : Type}
    (getFunctionName : (T → Go σ (U × Option Error)) → String)
    (sharpV : T → String)
    (action : T → Go σ (U × Option Error)) : T → Go σ (Monad U) :=
  fun t w =>
    match action t w with
    | .ok ((u, err), w') =>
      match err with
      | some e =>
        if w'.decorateError then
          .ok ({ value := none,
                 err := some (Errorf (getFunctionName action) (sharpV t) e) },
               w')
        else
          .ok ({ value := none, err := some e }, w')
      | none => .ok ({ value := some u, err := none }, w')
    | .error p => .error p

/-- The function `Ensure`: the returned closure. The inner function
literal ignores its argument and uses the captured `t`. -/
def Ensure {σ T U : Type}
    (getFunctionName : (T → Go σ (U × Option Error)) → String)
    (sharpV : T → String)
    (action : T → Go σ U) : T → Go σ (Monad U) :=
  fun t =>
    Wrap getFunctionName sharpV
      (fun _ w =>
        match action t w with
        | .ok (u, w') => .ok ((u, none), w')
        | .error p => .error p)
      t

/-- The function `Unpack`; `default` is the zero value of `T`. -/
def Unpack {T : Type} [Inhabited T] (t : Monad T) : T × Option Error :=
  match t.value with
  | some v => (v, t.err)
  | none => (default, t.err)

/-- The function `Transform`. -/
def Transform {σ T U : Type}
    (getFunctionName : (T → Go σ (U × Option Error)) → String)
    (sharpV : T → String)
    (t : Monad T) (action : T → Go σ (U × Option Error)) : Go σ (Monad U) :=
  Bind t (Wrap getFunctionName sharpV action)

/-- The function `WithCtx`. -/
def WithCtx {σ C T U : Type} (ctx : C)
    (action : C → T → Go σ (U × Option Error)) : T → Go σ (U × Option Error) :=
  fun t => action ctx t

/-- The function `DisableErrorDecoration`. -/
def DisableErrorDecoration {σ : Type} : Go σ Unit :=
  fun w => .ok ((), { w with decorateError := false })

/-- The function `EnableErrorDecoration`. -/
def EnableErrorDecoration {σ : Type} : Go σ Unit :=
  fun w => .ok ((), { w with decorateError := true })

/-! ## The expressions of `errmon_test.go` -/

/-- Arithmetic on Go's 64-bit `int` wraps around. -/
def wrapInt (n : Int) : Int :=
  (n + 2 ^ 63) % 2 ^ 64 - 2 ^ 63

/-- The test's `multiplyTwo`; the captured variable `errorMultiply` is a
parameter. -/
def multiplyTwo {σ : Type} (errorMultiply : Option Error) :
    Int → Go σ (Int × Option Error) :=
  fun n => Go.ret (wrapInt (n * 2), errorMultiply)

/-- The test's `addThree`; the captured variable `errorAdd` is a
parameter. -/
def addThree {σ : Type} (errorAdd : Option Error) :
    Int → Go σ (Int × Option Error) :=
  fun n => Go.ret (wrapInt (n + 3), errorAdd)

/-- The `%#v` rendering of an `int`. -/
def sharpVInt (n : Int) : String :=
  toString n

/-- The expression `Unpack(Bind(Bind(Return(v), Wrap(f1)), Wrap(f2)))` of
the tests `BindStyle...`, evaluated in Go's order. -/
def unpackBindBind {σ T U V : Type} [Inhabited V]
    (name1 : (T → Go σ (U × Option Error)) → String) (sharpV1 : T → String)
    (name2 : (U → Go σ (V × Option Error)) → String) (sharpV2 : U → String)
    (v : T) (f1 : T → Go σ (U × Option Error))
    (f2 : U → Go σ (V × Option Error)) : Go σ (V × Option Error) :=
  Go.seq (Bind (Return v) (Wrap name1 sharpV1 f1)) fun m1 =>
  Go.seq (Bind m1 (Wrap name2 sharpV2 f2)) fun m2 =>
  Go.ret (Unpack m2)

/-- A step that counts its applications in the user state. -/
def countingStep {T U : Type} (f : T → Monad U) : T → Go Nat (Monad U) :=
  fun t w => .ok (f t, { w with user := w.user + 1 })

/-- A plain fallible function that counts its applications in the user
state. -/
def countingFn {T U : Type} (f : T → U × Option Error) :
    T → Go Nat (U × Option Error) :=
  fun t w => .ok (f t, { w with user := w.user + 1 })

/-- The expression `Build(step)()`: build the closure, then invoke it. -/
def buildCall {σ T : Type} (step : Go σ (T × Option Error)) : Go σ (Monad T) :=
  Go.seq (Build step) fun closure => closure

/-- The expression `Unpack(Build(step)())`. -/
def unpackBuild {σ T : Type} [Inhabited T] (step : Go σ (T × Option Error)) :
    Go σ (T × Option Error) :=
  Go.seq (buildCall step) fun m => Go.ret (Unpack m)

/-- The container invariant: exactly one of value and error is present. -/
def Monad.exactlyOne {T : Type} (m : Monad T) : Bool :=
  m.value.isSome != m.err.isSome

/-- Invoke a zero-argument closure `n` times in a row and collect what it
returned. -/
def callTimes {σ α : Type} : Nat → Go σ α → Go σ (List α)
  | 0, _ => Go.ret []
  | n + 1, closure =>
    Go.seq closure fun a =>
    Go.seq (callTimes n closure) fun rest =>
    Go.ret (a :: rest)

/-- A zero-argument plain function that counts its applications in the
user state. -/
def countingAction {T : Type} (r : T × Option Error) :
    Go Nat (T × Option Error) :=
  fun w => .ok (r, { w with user := w.user + 1 })

/-- The standard library's `strconv.Itoa`. -/
def Itoa (n : Int) : String :=
  toString n

/-- The expression of `TestMonadLongerChain`:
`Unpack(Bind(Bind(Bind(Return(3), Wrap(f1)), Wrap(f2)), Ensure(strconv.Itoa)))`
with the two function literals of the test. -/
def longerChain {σ : Type}
    (name1 name2 : (Int → Go σ (Int × Option Error)) → String)
    (name3 : (Int → Go σ (String × Option Error)) → String) :
    Go σ (String × Option Error) :=
  Go.seq (Bind (Return 3)
    (Wrap name1 sharpVInt fun n => Go.ret (wrapInt (n * 2), none))) fun m1 =>
  Go.seq (Bind m1
    (Wrap name2 sharpVInt fun n => Go.ret (wrapInt (n + 3), none))) fun m2 =>
  Go.seq (Bind m2
    (Ensure name3 sharpVInt fun n => Go.ret (Itoa n))) fun m3 =>
  Go.ret (Unpack m3)

/-! ## Lemmas on errors -/

theorem Error.is_self (e : Error) : Error.is e e = true := by
  cases e <;> simp [Error.is]

theorem Is_Errorf (name rendered : String) (e : Error) :
    Is (some (Errorf name rendered e)) (some e) = true := by
  simp [Is, Errorf, Error.is, Error.is_self]

/-! ## Bind -/

/-- C1: when `r` carries a non-nil error, `Bind(r, step)` and `AndThen(r,
step)` return, for every step and in every world, the Monad with no value
and the error of `r`, and leave the world as it was (the step is not
applied); when `r` carries no error and holds `v`, they are the call
`step(v)`. -/
theorem Bind_contract {σ T U : Type} (r : Monad T)
    (step : T → Go σ (Monad U)) :
    (∀ e, r.err = some e →
      Bind r step = Go.ret { value := none, err := some e } ∧
      AndThen r step = Go.ret { value := none, err := some e }) ∧
    (∀ v, r.err = none → r.value = some v →
      Bind r step = step v ∧ AndThen r step = step v) := by
  refine ⟨?_, ?_⟩
  · intro e he
    have hb : Bind r step = Go.ret { value := none, err := some e } := by
      funext w
      simp [Bind, Go.ret, he]
    exact ⟨hb, hb⟩
  · intro v he hv
    have hb : Bind r step = step v := by
      funext w
      simp [Bind, deref, he, hv]
    exact ⟨hb, hb⟩

/-- Witness of C1: a failure that also holds a value, and a success, with a
step that counts its applications. -/
theorem Bind_contract_witness :
    (Bind { value := some (3 : Int), err := some (Error.errorString 1 "boom") }
        (countingStep fun t => Return (t + 1)) (World.init 0)
      = .ok ({ value := none, err := some (Error.errorString 1 "boom") },
             World.init 0)) ∧
    (Bind (Return (3 : Int)) (countingStep fun t => Return (t + 1))
        (World.init 0)
      = .ok (Return 4, { decorateError := true, user := 1 })) :=
  ⟨by rw [((Bind_contract _ _).1 (Error.errorString 1 "boom") rfl).1]; rfl,
   by rw [((Bind_contract (Return (3 : Int)) _).2 3 rfl rfl).1]; rfl⟩

/-! ## Chains of wrapped functions -/

/-- C2: when `f1(v)` returns a non-nil error `e1` together with any value
`u`, `Unpack(Bind(Bind(Return(v), Wrap(f1)), Wrap(f2)))` returns the zero
value and an error `err` with `errors.Is(err, e1)`: `e1` itself when the
flag is off, the decoration wrapping `e1` when it is on. The world is the
one `f1` left, for every `f2`: `f2` is not applied. -/
theorem unpackBindBind_abort {σ T U V : Type} [Inhabited V]
    (name1 : (T → Go σ (U × Option Error)) → String) (sharpV1 : T → String)
    (name2 : (U → Go σ (V × Option Error)) → String) (sharpV2 : U → String)
    (v : T) (f1 : T → Go σ (U × Option Error))
    (f2 : U → Go σ (V × Option Error)) (w w1 : World σ) (u : U) (e1 : Error)
    (h : f1 v w = .ok ((u, some e1), w1)) :
    ∃ err : Error,
      unpackBindBind name1 sharpV1 name2 sharpV2 v f1 f2 w
        = .ok ((default, some err), w1) ∧
      Is (some err) (some e1) = true ∧
      (w1.decorateError = false → err = e1) ∧
      (w1.decorateError = true →
        err = Errorf (name1 f1) (sharpV1 v) e1 ∧ err.Unwrap = some e1) := by
  cases hd : w1.decorateError
  · refine ⟨e1, ?_, ?_, fun _ => rfl, fun hc => by cases hc⟩
    · simp [unpackBindBind, Go.seq, Go.ret, Bind, Return, Some, Wrap, deref,
        Unpack, h, hd]
    · simp [Is, Error.is_self]
  · refine ⟨Errorf (name1 f1) (sharpV1 v) e1, ?_, Is_Errorf _ _ _,
      (fun hc => by cases hc), (fun _ => ⟨rfl, rfl⟩)⟩
    simp [unpackBindBind, Go.seq, Go.ret, Bind, Return, Some, Wrap, deref,
      Unpack, h, hd]

/-- Witness of C2: the test `BindStyleAbortOnError` with counting
functions, the first returning `6` with an error, the second one failing
too. -/
theorem unpackBindBind_abort_witness :
    ∃ err : Error,
      unpackBindBind (fun _ => "multiplyTwo") sharpVInt
          (fun _ => "addThree") sharpVInt (3 : Int)
          (countingFn fun _ => ((6 : Int), some (Error.errorString 1 "some-error")))
          (countingFn fun n => ((n + 3 : Int), some (Error.errorString 2 "other")))
          (World.init 0)
        = .ok ((default, some err), { decorateError := true, user := 1 }) ∧
      Is (some err) (some (Error.errorString 1 "some-error")) = true ∧
      (true = false → err = Error.errorString 1 "some-error") ∧
      (true = true →
        err = Errorf "multiplyTwo" (sharpVInt 3)
                (Error.errorString 1 "some-error") ∧
        err.Unwrap = some (Error.errorString 1 "some-error")) :=
  unpackBindBind_abort (fun _ => "multiplyTwo") sharpVInt
    (fun _ => "addThree") sharpVInt (3 : Int)
    (countingFn fun _ => ((6 : Int), some (Error.errorString 1 "some-error")))
    (countingFn fun n => ((n + 3 : Int), some (Error.errorString 2 "other")))
    (World.init 0) { decorateError := true, user := 1 } 6
    (Error.errorString 1 "some-error") rfl

/-- C3: when `f1(v)` returns `u1` with a nil error and `f2(u1)` returns `u2`
with a nil error, `Unpack(Bind(Bind(Return(v), Wrap(f1)), Wrap(f2)))`
returns `(u2, nil)`; for `3`, times two, plus three it returns `(9, nil)`. -/
theorem unpackBindBind_success {σ T U V : Type} [Inhabited V]
    (name1 : (T → Go σ (U × Option Error)) → String) (sharpV1 : T → String)
    (name2 : (U → Go σ (V × Option Error)) → String) (sharpV2 : U → String) :
    (∀ (v : T) (f1 : T → Go σ (U × Option Error))
        (f2 : U → Go σ (V × Option Error)) (w w1 w2 : World σ) (u1 : U)
        (u2 : V),
      f1 v w = .ok ((u1, none), w1) → f2 u1 w1 = .ok ((u2, none), w2) →
      unpackBindBind name1 sharpV1 name2 sharpV2 v f1 f2 w
        = .ok ((u2, none), w2)) ∧
    (∀ (n1 n2 : (Int → Go σ (Int × Option Error)) → String) (w : World σ),
      unpackBindBind n1 sharpVInt n2 sharpVInt 3 (multiplyTwo none)
        (addThree none) w = .ok ((9, none), w)) := by
  refine ⟨?_, ?_⟩
  · intro v f1 f2 w w1 w2 u1 u2 h1 h2
    simp [unpackBindBind, Go.seq, Go.ret, Bind, Return, Some, Wrap, deref,
      Unpack, h1, h2]
  · intro n1 n2 w
    have h6 : wrapInt 6 = 6 := by decide
    have h9 : wrapInt 9 = 9 := by decide
    simp [unpackBindBind, Go.seq, Go.ret, Bind, Return, Some, Wrap, deref,
      Unpack, multiplyTwo, addThree, h6, h9]

/-- Witness of C3: counting functions, so that the final world shows both
were applied once. -/
theorem unpackBindBind_success_witness :
    unpackBindBind (fun _ => "f1") sharpVInt (fun _ => "f2") sharpVInt
        (3 : Int) (countingFn fun n => ((n * 2 : Int), none))
        (countingFn fun n => ((n + 3 : Int), none)) (World.init 0)
      = .ok (((9 : Int), none), { decorateError := true, user := 2 }) :=
  (unpackBindBind_success (fun _ => "f1") sharpVInt (fun _ => "f2")
    sharpVInt).1 (3 : Int) (countingFn fun n => ((n * 2 : Int), none))
    (countingFn fun n => ((n + 3 : Int), none)) (World.init 0)
    { decorateError := true, user := 1 } { decorateError := true, user := 2 }
    6 9 rfl rfl

/-! ## Fish, Join and Raise -/

/-- C4: `Fish(f, g)(t)` is the call `f(t)` followed by `Bind` of its result
with `g`: the same result, the same panics and the same effects. -/
theorem Fish_eq_Bind {σ T U V : Type} (f : T → Go σ (Monad U))
    (g : U → Go σ (Monad V)) (t : T) :
    Fish f g t = Go.seq (f t) (fun mu => Bind mu g) := by
  funext w
  simp only [Fish, Go.seq, Bind]
  cases f t w with
  | error p => rfl
  | ok r => rfl

/-- C5: `Join(Raise(f)(x))` is `Bind(x, f)`: the same result, the same
panics and the same effects. -/
theorem Join_Raise_eq_Bind {σ T U : Type} (f : T → Go σ (Monad U))
    (x : Monad T) :
    Go.seq (Raise f x) (fun mmu => Go.lift (Join mmu)) = Bind x f := by
  funext w
  obtain ⟨value, err⟩ := x
  cases err with
  | some e => simp [Go.seq, Go.lift, Raise, Join, Bind]
  | none =>
    cases value with
    | none => simp [Go.seq, Raise, Bind, deref]
    | some t =>
      simp only [Go.seq, Go.lift, Raise, Join, Bind, deref]
      cases f t w with
      | error p => simp
      | ok r => simp

/-! ## WithDefault -/

/-- C6: when `r` carries a non-nil error, `WithDefault(r, fb)` and
`OrElse(r, fb)` are the call `fb()`, and with `FromValue(d)` the result
unpacks to `(d, nil)`; when `r` holds `v` and no error, they return `r`
with no effect for every `fb` (the fallback is not invoked), and `r`
unpacks to `(v, nil)`. -/
theorem WithDefault_contract {σ T : Type} [Inhabited T] (r : Monad T)
    (fb : Go σ (Monad T)) :
    (∀ e, r.err = some e →
      WithDefault r fb = fb ∧ OrElse r fb = fb ∧
      ∀ d : T,
        Go.seq (WithDefault r (FromValue d)) (fun m => Go.ret (Unpack m))
          = (Go.ret (d, none) : Go σ (T × Option Error))) ∧
    (∀ v, r.value = some v → r.err = none →
      WithDefault r fb = Go.ret r ∧ OrElse r fb = Go.ret r ∧
      Unpack r = (v, none)) := by
  refine ⟨?_, ?_⟩
  · intro e he
    have hf : ∀ g : Go σ (Monad T), WithDefault r g = g := by
      intro g
      funext w
      simp [WithDefault, he]
    refine ⟨hf fb, hf fb, ?_⟩
    intro d
    rw [hf]
    funext w
    simp [Go.seq, Go.ret, FromValue, Unpack]
  · intro v hv he
    have hr : WithDefault r fb = Go.ret r := by
      funext w
      simp [WithDefault, Go.ret, he]
    exact ⟨hr, hr, by simp [Unpack, hv, he]⟩

/-- Witness of C6: a failure with the fallback `FromValue(-1)`, and a
success with a fallback that counts its invocations. -/
theorem WithDefault_contract_witness :
    (Go.seq (WithDefault (Err (some (Error.errorString 1 "some-error")))
          (FromValue (-1 : Int))) (fun m => Go.ret (Unpack m))
      = (Go.ret ((-1 : Int), none) : Go Nat (Int × Option Error))) ∧
    (WithDefault (Some (3 : Int))
        (fun w => .ok (Some 0, { w with user := w.user + 1 })) (World.init 0)
      = .ok (Some 3, World.init 0)) :=
  ⟨((WithDefault_contract (Err (some (Error.errorString 1 "some-error")))
      (FromValue (-1 : Int))).1 (Error.errorString 1 "some-error") rfl).2.2
      (-1),
   by rw [((WithDefault_contract (Some (3 : Int)) _).2 3 rfl rfl).1]; rfl⟩

/-! ## Unpack, panics and the container invariant -/

/-- C7: for a step that returns `7` together with the error `boom`,
`Unpack(Build(step)())` returns `(7, boom)`: the stored value, where the zero
value of `int` is `0`. -/
theorem unpackBuild_value_with_error :
    unpackBuild (Go.ret ((7 : Int), some (Error.errorString 1 "boom")))
        (World.init ())
      = .ok (((7 : Int), some (Error.errorString 1 "boom")), World.init ()) ∧
    (default : Int) = 0 :=
  ⟨rfl, rfl⟩

/-- C8: on `Err(nil)`, a Monad with neither a value nor an error, `Bind`,
`AndThen`, `Join`, `Raise` and `Transform` panic with a nil dereference,
and so does `Fish` when its first step returns `Err(nil)`, although the
steps are total. -/
theorem combinators_panic_on_Err_nil :
    Bind (Err none) (fun t : Int => (Go.ret (Return t) : Go Unit (Monad Int)))
        (World.init ()) = .error Panic.nilDereference ∧
    AndThen (Err none)
        (fun t : Int => (Go.ret (Return t) : Go Unit (Monad Int)))
        (World.init ()) = .error Panic.nilDereference ∧
    Fish (fun _ : Int => (Go.ret (Err none) : Go Unit (Monad Int)))
        (fun t : Int => Go.ret (Return t)) 3
        (World.init ()) = .error Panic.nilDereference ∧
    Join (Err none : Monad (Monad Int)) = .error Panic.nilDereference ∧
    Raise (fun t : Int => (Go.ret (Return t) : Go Unit (Monad Int)))
        (Err none) (World.init ()) = .error Panic.nilDereference ∧
    Transform (fun _ => "f") sharpVInt (Err none)
        (fun t : Int => (Go.ret (t, none) : Go Unit (Int × Option Error)))
        (World.init ()) = .error Panic.nilDereference :=
  ⟨rfl, rfl, rfl, rfl, rfl, rfl⟩

/-- C9: for a step that returns `7` together with the error `boom`,
`Build(step)()` is a Monad that holds both the value `7` and the error: it
breaks the container invariant. -/
theorem buildCall_breaks_invariant :
    buildCall (Go.ret ((7 : Int), some (Error.errorString 1 "boom")))
        (World.init ())
      = .ok ({ value := some 7, err := some (Error.errorString 1 "boom") },
             World.init ()) ∧
    Monad.exactlyOne
        ({ value := some 7, err := some (Error.errorString 1 "boom") } :
          Monad Int) = false :=
  ⟨rfl, rfl⟩

/-! ## Decoration -/

/-- C10: the flag is on in the initial world and after
`EnableErrorDecoration`; and when `f(t)` returns a non-nil error `e` and the
flag is on as `f` returns (the moment `Wrap` reads it), `Wrap(f)(t)` is a
failure with no value whose error unwraps to `e`, satisfies `errors.Is`
with `e`, and has the message `n(<t in %#v>): <message of e>` for `n` the
name of `f`. -/
theorem Wrap_decorates {σ T U : Type}
    (getFunctionName : (T → Go σ (U × Option Error)) → String)
    (sharpV : T → String) (f : T → Go σ (U × Option Error)) :
    (∀ s : σ, (World.init s).decorateError = true) ∧
    (∀ w : World σ,
      EnableErrorDecoration w
        = .ok ((), { decorateError := true, user := w.user })) ∧
    (∀ (t : T) (w w1 : World σ) (u : U) (e : Error),
      f t w = .ok ((u, some e), w1) → w1.decorateError = true →
      ∃ err : Error,
        Wrap getFunctionName sharpV f t w
          = .ok ({ value := none, err := some err }, w1) ∧
        err.Unwrap = some e ∧
        Is (some err) (some e) = true ∧
        err.message
          = getFunctionName f ++ "(" ++ sharpV t ++ "): " ++ e.message) := by
  refine ⟨fun _ => rfl, fun _ => rfl, ?_⟩
  intro t w w1 u e h hd
  refine ⟨Errorf (getFunctionName f) (sharpV t) e, ?_, rfl, Is_Errorf _ _ _,
    rfl⟩
  simp [Wrap, h, hd]

/-- Witness of C10: the test's `multiplyTwo` failing on `3` in the initial
world. -/
theorem Wrap_decorates_witness :
    ∃ err : Error,
      Wrap (fun _ => "errm.multiplyTwo") sharpVInt
          (multiplyTwo (some (Error.errorString 1 "some-error"))) 3
          (World.init ())
        = .ok ({ value := none, err := some err }, World.init ()) ∧
      err.Unwrap = some (Error.errorString 1 "some-error") ∧
      Is (some err) (some (Error.errorString 1 "some-error")) = true ∧
      err.message = "errm.multiplyTwo(3): some-error" :=
  (Wrap_decorates (fun _ => "errm.multiplyTwo") sharpVInt
    (multiplyTwo (some (Error.errorString 1 "some-error")))).2.2
    3 (World.init ()) (World.init ()) 6 (Error.errorString 1 "some-error")
    rfl rfl

/-- C11: `DisableErrorDecoration` turns the flag off and leaves the rest of
the world alone; and when `f(t)` returns a non-nil error `e` and the flag is
off as `f` returns (the moment `Wrap` reads it), `Wrap(f)(t)` is the failure
with no value whose error is `e` itself, also when the call follows
`DisableErrorDecoration` directly. -/
theorem Wrap_undecorated {σ T U : Type}
    (getFunctionName : (T → Go σ (U × Option Error)) → String)
    (sharpV : T → String) (f : T → Go σ (U × Option Error)) :
    (∀ w : World σ,
      DisableErrorDecoration w
        = .ok ((), { decorateError := false, user := w.user })) ∧
    (∀ (t : T) (w w1 : World σ) (u : U) (e : Error),
      f t w = .ok ((u, some e), w1) → w1.decorateError = false →
      Wrap getFunctionName sharpV f t w
        = .ok ({ value := none, err := some e }, w1)) ∧
    (∀ (t : T) (w w1 : World σ) (u : U) (e : Error),
      f t { decorateError := false, user := w.user } = .ok ((u, some e), w1) →
      w1.decorateError = false →
      Go.seq DisableErrorDecoration
          (fun _ => Wrap getFunctionName sharpV f t) w
        = .ok ({ value := none, err := some e }, w1)) := by
  have key : ∀ (t : T) (w w1 : World σ) (u : U) (e : Error),
      f t w = .ok ((u, some e), w1) → w1.decorateError = false →
      Wrap getFunctionName sharpV f t w
        = .ok ({ value := none, err := some e }, w1) := by
    intro t w w1 u e h hd
    simp [Wrap, h, hd]
  refine ⟨fun _ => rfl, key, ?_⟩
  intro t w w1 u e h hd
  simp only [Go.seq, DisableErrorDecoration]
  exact key t _ w1 u e h hd

/-- Witness of C11: the test's `multiplyTwo` failing on `3`, called right
after `DisableErrorDecoration` in the initial world. -/
theorem Wrap_undecorated_witness :
    Go.seq DisableErrorDecoration
        (fun _ => Wrap (fun _ => "errm.multiplyTwo") sharpVInt
          (multiplyTwo (some (Error.errorString 1 "some-error"))) 3)
        (World.init ())
      = .ok ({ value := none, err := some (Error.errorString 1 "some-error") },
             { decorateError := false, user := () }) :=
  (Wrap_undecorated (fun _ => "errm.multiplyTwo") sharpVInt
    (multiplyTwo (some (Error.errorString 1 "some-error")))).2.2
    3 (World.init ()) { decorateError := false, user := () } 6
    (Error.errorString 1 "some-error") rfl rfl

/-! ## Build -/

theorem callTimes_pure {σ α : Type} (a : α) (closure : Go σ α)
    (h : ∀ w, closure w = .ok (a, w)) (n : Nat) (w : World σ) :
    callTimes n closure w = .ok (List.replicate n a, w) := by
  induction n with
  | zero => rfl
  | succ k ih => simp [callTimes, Go.seq, Go.ret, h, ih, List.replicate_succ]

/-- C12: when `step()` returns `(t, err)` and leaves the world `w1`,
`Build(step)` returns in the world `w1`, the one a single application of
`step` leaves; and the returned function, invoked `n` times in any world,
returns `n` times the Monad made of `t` and `err` and leaves that world as it
was: it applies `step` no further time. -/
theorem Build_once {σ T : Type} (step : Go σ (T × Option Error))
    (w w1 : World σ) (t : T) (err : Option Error)
    (h : step w = .ok ((t, err), w1)) :
    ∃ closure : Go σ (Monad T),
      Build step w = .ok (closure, w1) ∧
      ∀ (n : Nat) (w2 : World σ),
        callTimes n closure w2
          = .ok (List.replicate n { value := some t, err := err }, w2) := by
  refine ⟨fun w'' => .ok ({ value := some t, err := err }, w''), ?_, ?_⟩
  · simp [Build, h]
  · intro n w2
    exact callTimes_pure _ _ (fun _ => rfl) n w2

/-- Witness of C12: a step that counts its applications; after `Build` the
count is `1` and it stays `1` over three invocations. -/
theorem Build_once_witness :
    ∃ closure : Go Nat (Monad Int),
      Build (countingAction ((-1 : Int), none)) (World.init 0)
        = .ok (closure, { decorateError := true, user := 1 }) ∧
      ∀ (n : Nat) (w2 : World Nat),
        callTimes n closure w2
          = .ok (List.replicate n { value := some (-1), err := none }, w2) :=
  Build_once (countingAction ((-1 : Int), none)) (World.init 0)
    { decorateError := true, user := 1 } (-1) none rfl

/-! ## Ensure -/

/-- C13: when `f(t)` returns `u`, `Ensure(f)(t)` is the success holding `u`
with a nil error, in every world and so under either setting of the flag; a
success holding `v` bound to `Ensure(f)` unpacks to `(f(v), nil)`; and the
chain `3`, times two, plus three, `strconv.Itoa` unpacks to `("9", nil)`. -/
theorem Ensure_success {σ T U : Type} [Inhabited U]
    (getFunctionName : (T → Go σ (U × Option Error)) → String)
    (sharpV : T → String) (f : T → Go σ U) :
    (∀ (t : T) (w w1 : World σ) (u : U),
      f t w = .ok (u, w1) →
      Ensure getFunctionName sharpV f t w
        = .ok ({ value := some u, err := none }, w1)) ∧
    (∀ (m : Monad T) (v : T) (w w1 : World σ) (u : U),
      m.value = some v → m.err = none → f v w = .ok (u, w1) →
      Go.seq (Bind m (Ensure getFunctionName sharpV f))
          (fun mu => Go.ret (Unpack mu)) w
        = .ok ((u, none), w1)) ∧
    (∀ (name1 name2 : (Int → Go σ (Int × Option Error)) → String)
        (name3 : (Int → Go σ (String × Option Error)) → String)
        (w : World σ),
      longerChain name1 name2 name3 w = .ok (("9", none), w)) := by
  have key : ∀ (t : T) (w w1 : World σ) (u : U),
      f t w = .ok (u, w1) →
      Ensure getFunctionName sharpV f t w
        = .ok ({ value := some u, err := none }, w1) := by
    intro t w w1 u h
    simp [Ensure, Wrap, h]
  refine ⟨key, ?_, ?_⟩
  · intro m v w w1 u hv he h
    simp [Go.seq, Go.ret, Bind, deref, Unpack, hv, he, key v w w1 u h]
  · intro name1 name2 name3 w
    rfl

/-- Witness of C13: a total function that counts its applications, with
the flag on and with the flag off. -/
theorem Ensure_success_witness :
    (Ensure (fun _ => "f") sharpVInt
        (fun (n : Int) (w : World Nat) =>
          .ok (Itoa n, { w with user := w.user + 1 }))
        9 { decorateError := true, user := 0 }
      = .ok ({ value := some "9", err := none },
             { decorateError := true, user := 1 })) ∧
    (Ensure (fun _ => "f") sharpVInt
        (fun (n : Int) (w : World Nat) =>
          .ok (Itoa n, { w with user := w.user + 1 }))
        9 { decorateError := false, user := 0 }
      = .ok ({ value := some "9", err := none },
             { decorateError := false, user := 1 })) :=
  ⟨(Ensure_success (fun _ => "f") sharpVInt
      (fun (n : Int) (w : World Nat) =>
        .ok (Itoa n, { w with user := w.user + 1 }))).1
      9 { decorateError := true, user := 0 }
      { decorateError := true, user := 1 } "9" rfl,
   (Ensure_success (fun _ => "f") sharpVInt
      (fun (n : Int) (w : World Nat) =>
        .ok (Itoa n, { w with user := w.user + 1 }))).1
      9 { decorateError := false, user := 0 }
      { decorateError := false, user := 1 } "9" rfl⟩

/-! ## Raise and Transform -/

/-- C14: when `x` carries a non-nil error `e`, `Raise(f)(x)` returns, for
every `f` and with no effect, the outer failure carrying `e` with no inner
Monad; when `x` holds `v` and no error, it is the call `f(v)` whose result
`mu`, success or failure, becomes the value of an outer success. -/
theorem Raise_nesting {σ T U : Type} (f : T → Go σ (Monad U)) (x : Monad T) :
    (∀ e, x.err = some e →
      Raise f x = Go.ret { value := none, err := some e }) ∧
    (∀ v, x.value = some v → x.err = none →
      Raise f x
        = Go.seq (f v) (fun mu => Go.ret { value := some mu, err := none })) := by
  refine ⟨?_, ?_⟩
  · intro e he
    funext w
    simp [Raise, Go.ret, he]
  · intro v hv he
    funext w
    simp only [Raise, Go.seq, Go.ret, deref, hv, he]
    cases f v w with
    | error p => simp
    | ok r => simp

/-- Witness of C14: a failure that also holds a value, and a success whose
step, counting its applications, returns a failure. -/
theorem Raise_nesting_witness :
    (Raise (countingStep fun _ : Int => (Err (some (Error.errorString 2 "inner")) : Monad Int))
        { value := some 3, err := some (Error.errorString 1 "outer") }
        (World.init 0)
      = .ok ({ value := none, err := some (Error.errorString 1 "outer") },
             World.init 0)) ∧
    (Raise (countingStep fun _ : Int => (Err (some (Error.errorString 2 "inner")) : Monad Int))
        (Some 3) (World.init 0)
      = .ok ({ value := some (Err (some (Error.errorString 2 "inner"))),
               err := none },
             { decorateError := true, user := 1 })) :=
  ⟨by rw [(Raise_nesting _ _).1 (Error.errorString 1 "outer") rfl]; rfl,
   by rw [(Raise_nesting _ (Some (3 : Int))).2 3 rfl rfl]; rfl⟩

/-- C15: `Transform(r, step)` is `Bind(r, Wrap(step))` as a call, in every
world and so under either setting of the flag; and when `r` carries a
non-nil error `e` it returns, for every `step` and with no effect, the
failure carrying `e` itself. -/
theorem Transform_eq_Bind_Wrap {σ T U : Type}
    (getFunctionName : (T → Go σ (U × Option Error)) → String)
    (sharpV : T → String) (r : Monad T) (step : T → Go σ (U × Option Error)) :
    Transform getFunctionName sharpV r step
      = Bind r (Wrap getFunctionName sharpV step) ∧
    (∀ e, r.err = some e →
      Transform getFunctionName sharpV r step
        = Go.ret { value := none, err := some e }) := by
  refine ⟨rfl, ?_⟩
  intro e he
  funext w
  simp [Transform, Bind, Go.ret, he]

/-- Witness of C15: a failure transformed, with the flag on, by a function
that counts its applications and would fail. -/
theorem Transform_eq_Bind_Wrap_witness :
    Transform (fun _ => "addThree") sharpVInt
        (Err (some (Error.errorString 1 "some-error")))
        (countingFn fun n : Int => ((n + 3 : Int), some (Error.errorString 2 "other")))
        (World.init 0)
      = .ok ({ value := none, err := some (Error.errorString 1 "some-error") },
             World.init 0) := by
  rw [(Transform_eq_Bind_Wrap (fun _ => "addThree") sharpVInt
    (Err (some (Error.errorString 1 "some-error")))
    (countingFn fun n : Int => ((n + 3 : Int), some (Error.errorString 2 "other")))).2
    (Error.errorString 1 "some-error") rfl]
  rfl

/-! ## Constructors and Unpack -/

/-- C16: `Unpack(Return(v))` and `Unpack(Some(v))` are `(v, nil)`; `Err(e)`
is the Monad with no value and the error `e`, and unpacks to the zero value
with `e`; `Unpack(Err(nil))` is the zero value with a nil error; and the
second component of `Unpack` is the stored error for every Monad. -/
theorem Unpack_roundtrip {T : Type} [Inhabited T] :
    (∀ v : T, Unpack (Return v) = (v, none) ∧ Unpack (Some v) = (v, none)) ∧
    (∀ e : Error,
      (Err (some e) : Monad T) = { value := none, err := some e } ∧
      Unpack (Err (some e) : Monad T) = (default, some e)) ∧
    Unpack (Err none : Monad T) = (default, none) ∧
    (∀ m : Monad T, (Unpack m).2 = m.err) := by
  refine ⟨fun _ => ⟨rfl, rfl⟩, fun _ => ⟨rfl, rfl⟩, rfl, ?_⟩
  intro m
  obtain ⟨value, err⟩ := m
  cases value <;> rfl

/-! ## Monad laws -/

/-- C17: `Bind(Bind(m, f), g)` is `Bind(m, t => Bind(f(t), g))` as a call:
the same result, the same panics and the same effects, so `f` and `g` are
applied in the same cases. -/
theorem Bind_assoc {σ T U V : Type} (m : Monad T) (f : T → Go σ (Monad U))
    (g : U → Go σ (Monad V)) :
    Go.seq (Bind m f) (fun mu => Bind mu g)
      = Bind m (fun t => Go.seq (f t) (fun mu => Bind mu g)) := by
  funext w
  obtain ⟨value, err⟩ := m
  cases err with
  | some e => simp [Go.seq, Bind]
  | none =>
    cases value with
    | none => simp [Go.seq, Bind, deref]
    | some t => simp [Go.seq, Bind, deref]

/-- C18: `Bind(Return(v), f)` is the call `f(v)`; and `Bind(m, Return)`
returns `m` itself for `m = Some(v)` and for `m = Err(e)` with `e`
non-nil. -/
theorem Return_unit {σ T U : Type} (f : T → Go σ (Monad U)) :
    (∀ v : T, Bind (Return v) f = f v) ∧
    (∀ v : T,
      Bind (Some v) (fun t => Go.ret (Return t))
        = (Go.ret (Some v) : Go σ (Monad T))) ∧
    (∀ e : Error,
      Bind (Err (some e) : Monad T) (fun t => Go.ret (Return t))
        = (Go.ret (Err (some e)) : Go σ (Monad T))) := by
  refine ⟨?_, ?_, ?_⟩
  · intro v
    funext w
    simp [Bind, Return, Some, deref]
  · intro v
    funext w
    simp [Bind, Return, Some, deref, Go.ret]
  · intro e
    funext w
    simp [Bind, Err, Go.ret]

/-! ## A Monad with both a value and an error -/

/-- C19: when `step()` returns `(t, e)` with `e` non-nil, `Build(step)()` is
the Monad holding both `t` and `e`; on that Monad `Bind` returns, for every
step and with no effect, the failure with no value carrying `e`,
`WithDefault` is the call `fb()`, `Raise(f)` returns, with no effect, the
outer failure carrying `e`, and `Unpack` returns `(t, e)`. -/
theorem error_wins {σ T U : Type} [Inhabited T] (t : T) (e : Error)
    (f : T → Go σ (Monad U)) (fb : Go σ (Monad T)) :
    (∀ (step : Go σ (T × Option Error)) (w w1 : World σ),
      step w = .ok ((t, some e), w1) →
      buildCall step w = .ok ({ value := some t, err := some e }, w1)) ∧
    Bind { value := some t, err := some e } f
      = Go.ret { value := none, err := some e } ∧
    WithDefault { value := some t, err := some e } fb = fb ∧
    Raise f { value := some t, err := some e }
      = Go.ret { value := none, err := some e } ∧
    Unpack ({ value := some t, err := some e } : Monad T) = (t, some e) := by
  refine ⟨?_, ?_, ?_, ?_, rfl⟩
  · intro step w w1 h
    simp [buildCall, Build, Go.seq, h]
  · funext w
    simp [Bind, Go.ret]
  · funext w
    simp [WithDefault]
  · funext w
    simp [Raise, Go.ret]

/-- Witness of C19: a step that counts its applications and returns `7`
together with the error `boom`. -/
theorem error_wins_witness :
    buildCall (countingAction ((7 : Int), some (Error.errorString 1 "boom")))
        (World.init 0)
      = .ok ({ value := some 7, err := some (Error.errorString 1 "boom") },
             { decorateError := true, user := 1 }) :=
  (error_wins (7 : Int) (Error.errorString 1 "boom")
    (countingStep fun n : Int => Return n) (FromValue 0)).1
    (countingAction ((7 : Int), some (Error.errorString 1 "boom")))
    (World.init 0) { decorateError := true, user := 1 } rfl

/-! ## The flag and the outcome of Wrap -/

/-- C20: take two runs of `Wrap(f)(t)` in which `f(t)` returns the same pair
`(u, err)`, one with the flag on and one with the flag off as `f` returns.
Both return, both results carry an error or neither does, and they have the
same value; with `err` nil both are the success holding `u`; with `err` a
non-nil `e` both have no value, both unpack to the zero value, and both
errors satisfy `errors.Is` with `e`. -/
theorem Wrap_flag_outcome {σ T U : Type} [Inhabited U]
    (getFunctionName : (T → Go σ (U × Option Error)) → String)
    (sharpV : T → String) (f : T → Go σ (U × Option Error)) (t : T)
    (wOn wOff w1 w2 : World σ) (u : U) (err : Option Error)
    (hOn : f t wOn = .ok ((u, err), w1))
    (hOff : f t wOff = .ok ((u, err), w2))
    (h1 : w1.decorateError = true) (h2 : w2.decorateError = false) :
    ∃ mOn mOff : Monad U,
      Wrap getFunctionName sharpV f t wOn = .ok (mOn, w1) ∧
      Wrap getFunctionName sharpV f t wOff = .ok (mOff, w2) ∧
      mOn.err.isSome = mOff.err.isSome ∧
      mOn.value = mOff.value ∧
      (err = none →
        mOn = { value := some u, err := none } ∧ mOff = mOn) ∧
      (∀ e, err = some e →
        mOn.value = none ∧ mOff.value = none ∧
        (Unpack mOn).1 = default ∧ (Unpack mOff).1 = default ∧
        Is mOn.err (some e) = true ∧ Is mOff.err (some e) = true) := by
  cases err with
  | none =>
    refine ⟨{ value := some u, err := none }, { value := some u, err := none },
      ?_, ?_, rfl, rfl, (fun _ => ⟨rfl, rfl⟩), ?_⟩
    · simp [Wrap, hOn]
    · simp [Wrap, hOff]
    · intro e he
      cases he
  | some e0 =>
    refine ⟨{ value := none,
              err := some (Errorf (getFunctionName f) (sharpV t) e0) },
      { value := none, err := some e0 }, ?_, ?_, rfl, rfl, ?_, ?_⟩
    · simp [Wrap, hOn, h1]
    · simp [Wrap, hOff, h2]
    · intro he
      cases he
    · intro e he
      cases he
      refine ⟨rfl, rfl, rfl, rfl, Is_Errorf _ _ _, ?_⟩
      simp [Is, Error.is_self]

/-- Witness of C20: the test's `multiplyTwo` failing on `3`, run with the
flag on and with the flag off. -/
theorem Wrap_flag_outcome_witness :
    ∃ mOn mOff : Monad Int,
      Wrap (fun _ => "errm.multiplyTwo") sharpVInt
          (multiplyTwo (some (Error.errorString 1 "some-error"))) 3
          { decorateError := true, user := () }
        = .ok (mOn, { decorateError := true, user := () }) ∧
      Wrap (fun _ => "errm.multiplyTwo") sharpVInt
          (multiplyTwo (some (Error.errorString 1 "some-error"))) 3
          { decorateError := false, user := () }
        = .ok (mOff, { decorateError := false, user := () }) ∧
      mOn.err.isSome = mOff.err.isSome ∧
      mOn.value = mOff.value ∧
      (some (Error.errorString 1 "some-error") = none →
        mOn = { value := some 6, err := none } ∧ mOff = mOn) ∧
      (∀ e, some (Error.errorString 1 "some-error") = some e →
        mOn.value = none ∧ mOff.value = none ∧
        (Unpack mOn).1 = default ∧ (Unpack mOff).1 = default ∧
        Is mOn.err (some e) = true ∧ Is mOff.err (some e) = true) :=
  Wrap_flag_outcome (fun _ => "errm.multiplyTwo") sharpVInt
    (multiplyTwo (some (Error.errorString 1 "some-error"))) 3
    { decorateError := true, user := () }
    { decorateError := false, user := () }
    { decorateError := true, user := () }
    { decorateError := false, user := () }
    6 (some (Error.errorString 1 "some-error")) rfl rfl rfl rfl

end errm
